import Mathlib

/-!
Shallow embedding of the upstream-resilience client of this repository
(`app/clients/law_client.py`) and of the `/debug/law-api` handler of
`main.py`, together with theorems settling the specification claims.

Modelling conventions:
* Strings are Lean `String`s; the handful of Python string operations the
  client uses (`lower`, `strip`, substring test `in`, slicing, UTF-8
  percent-encoding) are defined below over `String.data` so that every
  definition evaluates inside the kernel.
* An upstream HTTP response is a `Response`: status code, content-type
  header and body text, plus the outcome of `response.json()` on that body
  (`bodyJson`), supplied by the environment together with the body.
* The environment of a run is a function `Nat → Outcome` giving, for each
  physical GET attempt (globally numbered), either the `httpx` exception it
  raised or the `Response` it returned.
* Python exceptions crossing the client boundary are the inductive `PyErr`;
  fallible code returns `Except PyErr`.
-/

namespace LawApi

/-- JSON values as produced by `response.json()`. Objects keep field order,
as Python dicts do. -/
inductive JValue where
  | jnull : JValue
  | jbool : Bool → JValue
  | jstr : String → JValue
  | jnum : Int → JValue
  | jarr : List JValue → JValue
  | jobj : List (String × JValue) → JValue

/-- ASCII lower-casing of one character, as `str.lower()` acts on the ASCII
marker strings (`text/html`, `application/json`, `<html`) the client tests. -/
def lowerChar (c : Char) : Char :=
  if 65 ≤ c.toNat ∧ c.toNat ≤ 90 then Char.ofNat (c.toNat + 32) else c

/-- Python `s.lower()` restricted to ASCII case mapping. -/
def pyLower (s : String) : String := String.mk (s.data.map lowerChar)

/-- ASCII whitespace recognised by Python `str.strip()`. -/
def isSpaceChar (c : Char) : Bool :=
  c == ' ' || c == '\t' || c == '\n' || c == '\r' || c == '\x0b' || c == '\x0c'

/-- Python `s.strip()` with no argument: whitespace removed from both ends. -/
def pyStrip (s : String) : String :=
  String.mk (((s.data.dropWhile isSpaceChar).reverse.dropWhile isSpaceChar).reverse)

/-- Helper for the substring test: does `pat` start some suffix of `hay`? -/
def containsAux (pat : List Char) : List Char → Bool
  | [] => pat.isEmpty
  | c :: t => pat.isPrefixOf (c :: t) || containsAux pat t

/-- Python `pat in hay` on strings: contiguous substring occurrence. -/
def pyIn (pat hay : String) : Bool := containsAux pat.data hay.data

/-- Python `text[:300] if len(text) > 300 else text` (law_client.py line 163). -/
def preview300 (s : String) : String :=
  if 300 < s.data.length then String.mk (s.data.take 300) else s

/-- UTF-8 encoding of one code point, as bytes (each < 256). -/
def utf8Bytes (c : Char) : List Nat :=
  let n := c.toNat
  if n < 128 then [n]
  else if n < 2048 then [192 + n / 64, 128 + n % 64]
  else if n < 65536 then [224 + n / 4096, 128 + (n / 64) % 64, 128 + n % 64]
  else [240 + n / 262144, 128 + (n / 4096) % 64, 128 + (n / 64) % 64, 128 + n % 64]

/-- Upper-case hexadecimal digit for `n < 16`. -/
def hexUpper (n : Nat) : Char := if n < 10 then Char.ofNat (48 + n) else Char.ofNat (55 + n)

/-- Python `urllib.parse.quote(s, safe="", encoding="utf-8")`: every UTF-8 byte is
percent-encoded except the always-safe unreserved characters
(letters, digits, `_`, `.`, `-`, `~`). -/
def pyQuote (s : String) : String :=
  String.mk (s.data.foldr (fun c acc =>
    (utf8Bytes c).foldr (fun b acc2 =>
      if (48 ≤ b ∧ b ≤ 57) ∨ (65 ≤ b ∧ b ≤ 90) ∨ (97 ≤ b ∧ b ≤ 122)
          ∨ b = 95 ∨ b = 46 ∨ b = 45 ∨ b = 126
      then Char.ofNat b :: acc2
      else '%' :: hexUpper (b / 16) :: hexUpper (b % 16) :: acc2) acc) [])

/-- Decimal digit accumulation for `pyParseInt`; fails on a non-digit. -/
def digitsVal : List Char → Nat → Option Nat
  | [], acc => some acc
  | c :: t, acc =>
    if 48 ≤ c.toNat ∧ c.toNat ≤ 57 then digitsVal t (acc * 10 + (c.toNat - 48)) else none

/-- Python `int(s)` on a string: optional surrounding whitespace, optional
sign, then at least one decimal digit; anything else raises `ValueError`. -/
def pyParseInt (s : String) : Option Int :=
  match (pyStrip s).data with
  | [] => none
  | '-' :: ds => if ds.isEmpty then none else (digitsVal ds 0).map (fun n => -(n : Int))
  | '+' :: ds => if ds.isEmpty then none else (digitsVal ds 0).map (fun n => (n : Int))
  | ds => (digitsVal ds 0).map (fun n => (n : Int))

/-- Decimal digits of a natural number (fuel-based, fuel larger than needed). -/
def natDigitsAux : Nat → Nat → List Char
  | 0, _ => []
  | _ + 1, 0 => []
  | fuel + 1, n => natDigitsAux fuel (n / 10) ++ [Char.ofNat (48 + n % 10)]

/-- Python `str(n)` for a natural number. -/
def pyStrOfNat (n : Nat) : String :=
  if n = 0 then "0" else String.mk (natDigitsAux (n + 1) n)

/-- Python `str(i)` for an integer. -/
def pyStrOfInt : Int → String
  | .ofNat n => pyStrOfNat n
  | .negSucc n => "-" ++ pyStrOfNat (n + 1)

/-- Exceptions that can cross the boundary of the client functions:
`lawNotFound` is `LawNotFoundError`, `upstream` is `UpstreamServiceError`
(human message plus machine `detail`), and the remaining constructors model
the Python built-in exception classes of the same names. -/
inductive PyErr where
  | lawNotFound : PyErr
  | upstream : String → String → PyErr
  | valueError : String → PyErr
  | typeError : String → PyErr
  | attributeError : String → PyErr
deriving DecidableEq

/-- Python `str(e)` on these exceptions: the single message argument, and the
empty string for the argument-less `LawNotFoundError()`. -/
def PyErr.toStr : PyErr → String
  | .lawNotFound => ""
  | .upstream m _ => m
  | .valueError m => m
  | .typeError m => m
  | .attributeError m => m

/-- An upstream HTTP response as the client observes it: status code,
content-type header value (empty string when the header is absent, matching
`headers.get("content-type") or ""`), body text, and the outcome of
`response.json()` on that body — `Except.error` carries the
`json.JSONDecodeError` message. -/
structure Response where
  status : Nat
  contentType : String
  bodyText : String
  bodyJson : Except String JValue

/-- Outcome of one physical GET attempt: either `httpx` raised (with the
exception text `str(e)`), or a response came back. -/
inductive Outcome where
  | exn : String → Outcome
  | resp : Response → Outcome

/-- One physical upstream request as issued by the attempt loop: endpoint
URL, query parameters in order, and the 1-based index of the header
combination used. -/
structure PhysRequest where
  url : String
  params : List (String × String)
  headerCombo : Nat

/-- The URL string passed to `temp_client.get` (law_client.py lines 94-95). -/
def PhysRequest.fullUrl (r : PhysRequest) : String :=
  r.url ++ "?" ++ String.intercalate "&" (r.params.map (fun p => p.1 ++ "=" ++ p.2))

/-- The three header combinations tried in order by
`_make_request_with_fallback` (law_client.py lines 65-91). -/
def headerCombinations : List (List (String × String)) :=
  [ [("User-Agent", "Mozilla/5.0 (Windows NT 10.0; Win64; x64) AppleWebKit/537.36 (KHTML, like Gecko) Chrome/120.0.0.0 Safari/537.36"),
     ("Accept", "text/html,application/xhtml+xml,application/xml;q=0.9,image/webp,image/apng,*/*;q=0.8"),
     ("Accept-Language", "ko-KR,ko;q=0.8,en-US;q=0.5,en;q=0.3"),
     ("Accept-Encoding", "gzip, deflate"),
     ("Referer", "http://www.law.go.kr/"),
     ("Connection", "keep-alive"),
     ("Upgrade-Insecure-Requests", "1"),
     ("Cache-Control", "max-age=0")],
    [("User-Agent", "Mozilla/5.0 (Windows NT 10.0; Win64; x64) AppleWebKit/537.36"),
     ("Referer", "http://www.law.go.kr/")],
    [("User-Agent", "Mozilla/4.0 (compatible; MSIE 8.0; Windows NT 10.0; Win64; x64; Trident/4.0)"),
     ("Accept", "text/html, application/xhtml+xml, */*"),
     ("Accept-Language", "ko-KR"),
     ("Referer", "http://www.law.go.kr/")] ]

/-- Result of the attempt loop: the value returned or exception raised, the
number of physical attempts consumed, and the list of sleep delays performed
between attempts. -/
structure MRCore where
  result : Except PyErr Response
  consumed : Nat
  sleeps : List Nat

/-- The attempt loop of `_make_request_with_fallback` (law_client.py lines
99-134): one physical GET per header combination; a response is accepted as
soon as it is status 200 without `text/html` in its (lower-cased)
content-type, or has `application/json` in its content-type; an exception is
caught, recorded in `last_error`, and the next combination is tried; any
other response just moves to the next combination. When the combinations are
exhausted it raises `UpstreamServiceError` whose detail reports
`str(last_error)` or `ALL_ATTEMPTS_FAILED`. The loop body performs no sleep
(the tenacity import at line 7 is applied nowhere), so `sleeps` is the
(empty) trace of backoff delays performed. -/
def mrCore (env : Nat → Outcome) : Nat → List (List (String × String)) → Option String → MRCore
  | _, [], lastError =>
    ⟨.error (.upstream "모든 헤더 조합을 시도했으나 JSON 응답을 받을 수 없습니다"
        ("마지막 오류: " ++ lastError.getD "ALL_ATTEMPTS_FAILED")), 0, []⟩
  | k, _ :: rest, lastError =>
    match env k with
    | .exn m =>
      let r := mrCore env (k + 1) rest (some m)
      ⟨r.result, r.consumed + 1, r.sleeps⟩
    | .resp r =>
      let ct := pyLower r.contentType
      if r.status == 200 && !(pyIn "text/html" ct) then ⟨.ok r, 1, []⟩
      else if pyIn "application/json" ct then ⟨.ok r, 1, []⟩
      else
        let rr := mrCore env (k + 1) rest lastError
        ⟨rr.result, rr.consumed + 1, rr.sleeps⟩

/-- Result of one whole client operation: the Python return value or
exception, the physical upstream requests issued (in order), and the sleep
delays performed. -/
structure OpResult (α : Type) where
  result : Except PyErr α
  issued : List PhysRequest
  sleeps : List Nat

/-- The method `_make_request_with_fallback(base_url, params)` (law_client.py lines
61-134): runs the attempt loop from global attempt index `k`; every attempt
sends the same URL and parameters, with the `i`-th header combination. -/
def makeRequestWithFallback (url : String) (params : List (String × String))
    (env : Nat → Outcome) (k : Nat) : OpResult Response :=
  let c := mrCore env k headerCombinations none
  ⟨c.result, (List.range c.consumed).map (fun j => ⟨url, params, j + 1⟩), c.sleeps⟩

/-- The detail-hint selection inside the HTML branch of
`_validate_json_response` (law_client.py lines 146-153): substring search of
the lower-cased body for the authentication/permission vocabulary, then the
access-blocked vocabulary, else a generic hint carrying the lower-cased
content-type. -/
def htmlHint (ct tl : String) : String :=
  if ["인증", "권한", "허가", "승인"].any (fun kw => pyIn kw tl) then
    "AUTHENTICATION_ERROR - API 키를 확인하세요"
  else if ["접속", "차단", "제한"].any (fun kw => pyIn kw tl) then
    "ACCESS_BLOCKED - IP 또는 요청이 차단됨"
  else "HTML_RESPONSE - Content-Type: " ++ ct

/-- The method `_validate_json_response` (law_client.py lines 136-167): empty or
whitespace-only body raises the empty-response error; `text/html` in the
lower-cased content-type or `<html` in the lower-cased body raises the
HTML-response error with the `htmlHint` detail; otherwise `response.json()`
is returned, a decode failure raising the parse error with a 300-character
body preview. -/
def validateJsonResponse (r : Response) : Except PyErr JValue :=
  if r.bodyText == "" || pyStrip r.bodyText == "" then
    .error (.upstream "법령 서비스에서 빈 응답을 반환했습니다" "EMPTY_RESPONSE")
  else
    let ct := pyLower r.contentType
    if pyIn "text/html" ct || pyIn "<html" (pyLower r.bodyText) then
      .error (.upstream "법령 서비스에서 HTML 응답을 반환했습니다" (htmlHint ct (pyLower r.bodyText)))
    else
      match r.bodyJson with
      | .ok v => .ok v
      | .error m =>
        .error (.upstream "JSON 파싱 실패"
          ("JSON_PARSE_ERROR: " ++ m ++ " | Preview: " ++ preview300 r.bodyText))

/-- Python type name of a JSON value, as used in exception messages. -/
def pyTypeName : JValue → String
  | .jnull => "NoneType"
  | .jbool _ => "bool"
  | .jstr _ => "str"
  | .jnum _ => "int"
  | .jarr _ => "list"
  | .jobj _ => "dict"

/-- Message of the `AttributeError` Python raises on `obj.attr` when the
object has no such attribute. -/
def noAttrMsg (ty attr : String) : String :=
  "\x27" ++ ty ++ "\x27 object has no attribute \x27" ++ attr ++ "\x27"

/-- Python `v.get(key, dflt)`: defined on dicts (first binding of the key,
else the default); any non-dict value has no `get` attribute, so the access
raises `AttributeError`. -/
def pyGet (v : JValue) (key : String) (dflt : JValue) : Except PyErr JValue :=
  match v with
  | .jobj fields => .ok ((fields.lookup key).getD dflt)
  | v => .error (.attributeError (noAttrMsg (pyTypeName v) "get"))

/-- Python truthiness of a JSON value. -/
def truthy : JValue → Bool
  | .jnull => false
  | .jbool b => b
  | .jstr s => !(s == "")
  | .jnum n => !(n == 0)
  | .jarr l => !l.isEmpty
  | .jobj f => !f.isEmpty

/-- Python `a or b` (first operand if truthy, else second). -/
def pyOr (a b : JValue) : JValue := if truthy a then a else b

/-- Message of the `ValueError` raised by `int(s)` on a non-numeric string. -/
def intLiteralMsg (s : String) : String :=
  "invalid literal for int() with base 10: \x27" ++ s ++ "\x27"

/-- Python `int(v)` on a JSON value: integers pass through, booleans become
0/1, strings are parsed as decimal integers (`ValueError` otherwise), and
other types raise `TypeError`. -/
def pyInt (v : JValue) : Except PyErr Int :=
  match v with
  | .jnum n => .ok n
  | .jbool b => .ok (if b then 1 else 0)
  | .jstr s =>
    match pyParseInt s with
    | some n => .ok n
    | none => .error (.valueError (intLiteralMsg s))
  | v => .error (.typeError
      ("int() argument must be a string, a bytes-like object or a real number, not \x27"
        ++ pyTypeName v ++ "\x27"))

/-- Python `str(v)` used by f-string interpolation of upstream field values.
Container values are abbreviated: no claim scenario interpolates a list or
dict into a URL. -/
def pyStr : JValue → String
  | .jnull => "None"
  | .jbool true => "True"
  | .jbool false => "False"
  | .jstr s => s
  | .jnum n => pyStrOfInt n
  | .jarr _ => "[...]"
  | .jobj _ => "\x7b...\x7d"

/-- Envelope unwrapping shared by the search operations (law_client.py lines
200-206, 221-227 and 305-310): `container = data.get(wrapperKey, data)`,
`items = container.get(itemsKey, [])`, a dict is normalised to a one-element
list, and `total = int(container.get("totalCnt", 0))`. -/
def processSearch (data : JValue) (wrapperKey itemsKey : String) :
    Except PyErr (JValue × Int) := do
  let container ← pyGet data wrapperKey data
  let items ← pyGet container itemsKey (.jarr [])
  let items : JValue :=
    match items with
    | .jobj f => .jarr [.jobj f]
    | x => x
  let rawTotal ← pyGet container "totalCnt" (.jnum 0)
  let total ← pyInt rawTotal
  .ok (items, total)

/-- One phase of `search_laws`: the bodies of the two try blocks at
law_client.py lines 192-206 and 214-227 are identical up to the parameter
set — request with header fallback, JSON validation, envelope unwrapping. -/
def lawSearchAttempt (url : String) (params : List (String × String))
    (env : Nat → Outcome) (k : Nat) : OpResult (JValue × Int) :=
  let mr := makeRequestWithFallback url params env k
  let r : Except PyErr (JValue × Int) := do
    let resp ← mr.result
    let data ← validateJsonResponse resp
    processSearch data "LawSearch" "law"
  ⟨r, mr.issued, mr.sleeps⟩

/-- Message of the `ValueError` raised by the mode validation at
law_client.py line 177. -/
def modeErrMsg : String := "search must be 1 (법령명) or 2 (본문)"

/-- The primary parameter set of `search_laws` (law_client.py lines
183-190), in dict insertion order. -/
def lawSearchParams (oc q : String) (page size : Int) : List (String × String) :=
  [("OC", oc), ("target", "law"), ("type", "JSON"),
   ("query", pyQuote (pyStrip q)), ("display", pyStrOfInt size), ("page", pyStrOfInt page)]

/-- The operation `search_laws(q, page, size, search)` (law_client.py lines 169-233):
validates the mode, issues the primary phase without the `search` parameter,
and on `UpstreamServiceError` (only) retries one phase with the `search`
parameter appended; failure of that second phase — any exception — is
reported as one `UpstreamServiceError` concatenating the first phase's
detail and the second exception's text. A phase-one exception that is not an
`UpstreamServiceError` propagates unwrapped. -/
def searchLaws (oc base q : String) (page size search : Int)
    (env : Nat → Outcome) (k : Nat) : OpResult (JValue × Int) :=
  if !(search == 1 || search == 2) then ⟨.error (.valueError modeErrMsg), [], []⟩
  else
    let params := lawSearchParams oc q page size
    let url := base ++ "/lawSearch.do"
    let a1 := lawSearchAttempt url params env k
    match a1.result with
    | .ok out => ⟨.ok out, a1.issued, a1.sleeps⟩
    | .error (.upstream m1 d1) =>
      let _ := m1
      let a2 := lawSearchAttempt url (params ++ [("search", pyStrOfInt search)]) env
        (k + a1.issued.length)
      match a2.result with
      | .ok out => ⟨.ok out, a1.issued ++ a2.issued, a1.sleeps ++ a2.sleeps⟩
      | .error e2 =>
        ⟨.error (.upstream "법령 검색 실패 (1차, 2차 모두 실패)"
            ("1차: " ++ d1 ++ " | 2차: " ++ e2.toStr)),
          a1.issued ++ a2.issued, a1.sleeps ++ a2.sleeps⟩
    | .error e => ⟨.error e, a1.issued, a1.sleeps⟩

/-- The canonical record returned by `get_law_detail` (law_client.py lines
272-277). `title` and `effective_date` hold the raw upstream values. -/
structure LawDetail where
  law_id : String
  title : JValue
  effective_date : JValue
  source_url : String

/-- Response processing of `get_law_detail` past validation (law_client.py
lines 254-277): extract the statute-info sub-object under the ordered
candidate keys, fail with `LawNotFoundError` when it is falsy, resolve the
master identifier, title and effective date by first-truthy candidate-key
lookup, and build the source URL from the master identifier (with the
effective-date qualifier when truthy) or else from the public `ID`. -/
def buildDetail (oc base lawId : String) (data : JValue) : Except PyErr LawDetail := do
  let t1 ← pyGet data "법령" (.jobj [])
  let dflt ← pyGet data "law" (.jobj [])
  let lawInfo ← pyGet t1 "기본정보" dflt
  if !(truthy lawInfo) then .error .lawNotFound
  else do
    let mstA ← pyGet lawInfo "MST" .jnull
    let mstB ← pyGet lawInfo "법령일련번호" .jnull
    let mst := pyOr mstA mstB
    let titleA ← pyGet lawInfo "법령명_한글" .jnull
    let titleB ← pyGet lawInfo "법령명한글" .jnull
    let titleC ← pyGet lawInfo "LAW_NM" .jnull
    let title := pyOr (pyOr (pyOr titleA titleB) titleC) (.jstr "")
    let effA ← pyGet lawInfo "시행일자" .jnull
    let effB ← pyGet lawInfo "EF_YD" .jnull
    let eff := pyOr (pyOr effA effB) (.jstr "")
    let src :=
      if truthy mst then
        base ++ "/lawService.do?OC=" ++ oc ++ "&target=law&type=HTML&MST=" ++ pyStr mst
          ++ (if truthy eff then "&efYd=" ++ pyStr eff else "")
      else
        base ++ "/lawService.do?OC=" ++ oc ++ "&target=law&type=HTML&ID=" ++ lawId
    .ok ⟨lawId, title, eff, src⟩

/-- The terminal exception mapping of `get_law_detail` (law_client.py lines
279-284): `LawNotFoundError` and `UpstreamServiceError` propagate, anything
else is wrapped into an `UpstreamServiceError` with `detail=str(e)`. -/
def detailWrap : PyErr → PyErr
  | .lawNotFound => .lawNotFound
  | .upstream m d => .upstream m d
  | e => .upstream "법령 상세 조회 실패" e.toStr

/-- The operation `get_law_detail(law_id)` (law_client.py lines 235-284): one request
phase, a 404 status from the returned response raising `LawNotFoundError`,
then validation and record building, with the terminal wrap of
`detailWrap`. -/
def getLawDetail (oc base lawId : String) (env : Nat → Outcome) (k : Nat) :
    OpResult LawDetail :=
  let params := [("OC", oc), ("target", "law"), ("type", "JSON"), ("ID", lawId)]
  let _ := params
  let mr := makeRequestWithFallback (base ++ "/lawService.do") params env k
  let r : Except PyErr LawDetail := do
    let resp ← mr.result
    if resp.status == 404 then .error .lawNotFound
    else do
      let data ← validateJsonResponse resp
      buildDetail oc base lawId data
  ⟨r.mapError detailWrap, mr.issued, mr.sleeps⟩

/-- The terminal exception mapping of `search_attachments` (law_client.py
lines 312-315): `UpstreamServiceError` propagates, anything else is wrapped. -/
def attachWrap : PyErr → PyErr
  | .upstream m d => .upstream m d
  | e => .upstream "별표/서식 검색 실패" e.toStr

/-- The operation `search_attachments(q, page, size)` (law_client.py lines 286-315): a
single phase against the `licbyl` target with the `licBylSearch` envelope,
and the terminal wrap of `attachWrap`; no mode fallback. -/
def searchAttachments (oc base q : String) (page size : Int)
    (env : Nat → Outcome) (k : Nat) : OpResult (JValue × Int) :=
  let params := [("OC", oc), ("target", "licbyl"), ("type", "JSON"),
    ("query", pyQuote (pyStrip q)), ("display", pyStrOfInt size), ("page", pyStrOfInt page)]
  let mr := makeRequestWithFallback (base ++ "/lawSearch.do") params env k
  let r : Except PyErr (JValue × Int) := do
    let resp ← mr.result
    let data ← validateJsonResponse resp
    processSearch data "licBylSearch" "licbyl"
  ⟨r.mapError attachWrap, mr.issued, mr.sleeps⟩

/-- Every attribute name defined on `LawClient` instances (law_client.py
lines 26-315): the class attribute, the methods, and the instance attributes
assigned in `__init__`. -/
def lawClientAttrs : List String :=
  ["DEFAULT_BASE", "__init__", "close", "_make_request_with_fallback",
   "_validate_json_response", "search_laws", "get_law_detail",
   "search_attachments", "oc", "base_url", "_client"]

/-- The `/debug/law-api` handler (main.py lines 64-181) up to its first
client-attribute access: line 84 evaluates `client._mask_oc_in_url`, and
Python attribute lookup raises `AttributeError` when the object defines no
such attribute. The handler body past that lookup (the header tests and the
client search) is unreachable for the `LawClient` of this repository and is
not modelled; the modelled handler returns the report or the exception,
together with the list of upstream requests issued before termination. -/
def debugLawApi (q oc base : String) : Except PyErr JValue × List PhysRequest :=
  let testUrl := base ++ "/lawSearch.do?OC=" ++ oc ++ "&target=law&type=JSON&query="
    ++ pyQuote q ++ "&display=5&page=1"
  let _ := testUrl
  if lawClientAttrs.contains "_mask_oc_in_url" then (.ok .jnull, [])
  else (.error (.attributeError (noAttrMsg "LawClient" "_mask_oc_in_url")), [])

/-- The three error classes of the stable caller contract (spec §6):
`LawNotFoundError`, `UpstreamServiceError` and the invalid-parameter
`ValueError`; the web adapter maps exactly these to HTTP 404/503/400. -/
def isTypedErr : PyErr → Bool
  | .lawNotFound => true
  | .upstream _ _ => true
  | .valueError _ => true
  | _ => false

/-- A Python call outcome that either returned or raised one of the three
typed errors of the caller contract. -/
def typedResult {α : Type} : Except PyErr α → Bool
  | .ok _ => true
  | .error e => isTypedErr e

/-- The exception raised by a call, if any (used to compare two runs while
ignoring returned data). -/
def errPart {α : Type} : Except PyErr α → Option PyErr
  | .ok _ => none
  | .error e => some e

/-- A 200 HTML error page, as mocked by the repository test
`test_search_laws_retry_with_search_param`. -/
def rHtml : Response :=
  ⟨200, "text/html", "<html>페이지 접속 실패</html>", .error "Expecting value: line 1 column 1 (char 0)"⟩

/-- Environment in which every physical attempt receives the 200 HTML page. -/
def envHtml : Nat → Outcome := fun _ => .resp rHtml

/-- A well-formed JSON search response. -/
def rJsonSearch : Response :=
  ⟨200, "application/json", "json-body",
    .ok (.jobj [("LawSearch",
      .jobj [("law", .jarr [.jobj [("법령ID", .jstr "123")]]), ("totalCnt", .jnum 1)])])⟩

/-- Environment in which the first physical attempt receives the 200 HTML
page and every later attempt receives a well-formed JSON search response. -/
def envHtmlThenJson : Nat → Outcome :=
  fun k => if k == 0 then .resp rHtml else .resp rJsonSearch

/-- A plain 404 with no content-type header and empty body, exactly the
upstream of the repository test `test_get_law_detail_not_found`
(`httpx.Response(404)`). -/
def r404plain : Response := ⟨404, "", "", .error "Expecting value: line 1 column 1 (char 0)"⟩

/-- Environment in which every physical attempt receives the plain 404. -/
def env404plain : Nat → Outcome := fun _ => .resp r404plain

/-- A status-500 response that nevertheless carries a JSON content type and
a well-formed statute-detail payload. -/
def r500json : Response :=
  ⟨500, "application/json", "json-body",
    .ok (.jobj [("법령", .jobj [("기본정보",
      .jobj [("MST", .jstr "mst123"), ("법령명한글", .jstr "산업안전보건법"),
             ("시행일자", .jstr "20250101")])])])⟩

/-- Environment in which every physical attempt receives `r500json`. -/
def env500json : Nat → Outcome := fun _ => .resp r500json

/-- A status-500 HTML response without a JSON content type. -/
def r500html : Response :=
  ⟨500, "text/html", "Server Error", .error "Expecting value: line 1 column 1 (char 0)"⟩

/-- Environment in which every physical attempt receives `r500html`. -/
def env500html : Nat → Outcome := fun _ => .resp r500html

/-- A 200 JSON response whose payload is a JSON array rather than an object. -/
def rJsonArray : Response := ⟨200, "application/json", "[]", .ok (.jarr [])⟩

/-- Environment in which every physical attempt receives the JSON array. -/
def envJsonArray : Nat → Outcome := fun _ => .resp rJsonArray

/-- A 200 JSON-content-type response whose body contains the authentication
keyword `인증` but no HTML root tag, and does not parse as JSON. -/
def rAuthWord : Response :=
  ⟨200, "application/json", "인증 오류", .error "Expecting value: line 1 column 1 (char 0)"⟩

/-- A 200 JSON detail response whose statute-info sub-object is empty, the
end-to-end scenario of spec §8. -/
def rEmptyInfo : Response :=
  ⟨200, "application/json", "json-body",
    .ok (.jobj [("법령", .jobj [("기본정보", .jobj [])])])⟩

/-- Environment in which every physical attempt receives `rEmptyInfo`. -/
def envEmptyInfo : Nat → Outcome := fun _ => .resp rEmptyInfo

/-- A 404 response that does carry a JSON content type. -/
def r404json : Response :=
  ⟨404, "application/json", "json-body", .ok (.jobj [])⟩

/-- Python `law_info.get(key)` for a dict-shaped statute-info record:
the bound value, or `None` when the key is absent. -/
def resolvedField (fields : List (String × JValue)) (key : String) : JValue :=
  (fields.lookup key).getD .jnull

/-- The master identifier resolved by law_client.py line 258:
`law_info.get("MST") or law_info.get("법령일련번호")`. -/
def resolvedMst (fields : List (String × JValue)) : JValue :=
  pyOr (resolvedField fields "MST") (resolvedField fields "법령일련번호")

/-- The effective date resolved by law_client.py line 264:
`law_info.get("시행일자") or law_info.get("EF_YD") or ""`. -/
def resolvedEff (fields : List (String × JValue)) : JValue :=
  pyOr (pyOr (resolvedField fields "시행일자") (resolvedField fields "EF_YD")) (.jstr "")

/-- The statute-info extraction of law_client.py line 254:
`data.get("법령", {}).get("기본정보", data.get("law", {}))`, in Python
evaluation order (the default argument is evaluated before the outer `get`).
It is exactly the first three steps of `buildDetail`. -/
def extractLawInfo (data : JValue) : Except PyErr JValue := do
  let t1 ← pyGet data "법령" (.jobj [])
  let dflt ← pyGet data "law" (.jobj [])
  pyGet t1 "기본정보" dflt

/-- A 200 JSON detail response that nests the statute info under the `law`
top-level key, the shape of the repository test fixture
`law_detail_response_factory`. -/
def rLawKeyJson : Response :=
  ⟨200, "application/json", "json-body",
    .ok (.jobj [("law", .jobj [("법령ID", .jstr "007363"),
      ("법령명한글", .jstr "산업안전보건법"), ("시행일자", .jstr "20250101"),
      ("MST", .jstr "mst123")])])⟩

/-- Environment in which every physical attempt receives `rLawKeyJson`. -/
def envLawKeyJson : Nat → Outcome := fun _ => .resp rLawKeyJson

/-- A 200 JSON detail response under the `law` key with no master
identifier and no effective date. -/
def rNoMstJson : Response :=
  ⟨200, "application/json", "json-body",
    .ok (.jobj [("law", .jobj [("법령명한글", .jstr "산업안전보건법")])])⟩

/-- Environment in which every physical attempt receives `rNoMstJson`. -/
def envNoMstJson : Nat → Outcome := fun _ => .resp rNoMstJson

/-- The primary phase of `search_laws` as it occurs inside `searchLaws`:
the mode-less parameter set against the search endpoint. -/
def searchPhase1 (oc base q : String) (page size : Int)
    (env : Nat → Outcome) (k : Nat) : OpResult (JValue × Int) :=
  lawSearchAttempt (base ++ "/lawSearch.do") (lawSearchParams oc q page size) env k

/-- The fallback phase of `search_laws` as it occurs inside `searchLaws`:
the same parameters with the `search` mode appended, starting at the attempt
index following the primary phase. -/
def searchPhase2 (oc base q : String) (page size m : Int)
    (env : Nat → Outcome) (k : Nat) : OpResult (JValue × Int) :=
  lawSearchAttempt (base ++ "/lawSearch.do")
    (lawSearchParams oc q page size ++ [("search", pyStrOfInt m)]) env
    (k + (searchPhase1 oc base q page size env k).issued.length)

/-- Environment in which every physical attempt receives `r404json`. -/
def env404json : Nat → Outcome := fun _ => .resp r404json

theorem mrCore_consumed_le (env : Nat → Outcome) (k : Nat)
    (combos : List (List (String × String))) (lastE : Option String) :
    (mrCore env k combos lastE).consumed ≤ combos.length := by
  induction combos generalizing k lastE with
  | nil => simp [mrCore]
  | cons c rest ih =>
    simp only [mrCore, List.length_cons]
    cases env k with
    | exn m =>
      dsimp only
      have := ih (k + 1) (some m)
      omega
    | resp r =>
      dsimp only
      by_cases h1 : (r.status == 200 && !(pyIn "text/html" (pyLower r.contentType))) = true
      · simp [h1]
      · by_cases h2 : pyIn "application/json" (pyLower r.contentType) = true
        · simp [h1, h2]
        · simp only [h1, h2, Bool.false_eq_true, if_false]
          have := ih (k + 1) lastE
          omega

theorem mrCore_consumed_pos (env : Nat → Outcome) (k : Nat)
    (c : List (String × String)) (rest : List (List (String × String))) (lastE : Option String) :
    1 ≤ (mrCore env k (c :: rest) lastE).consumed := by
  simp only [mrCore]
  cases env k with
  | exn m => dsimp only; omega
  | resp r =>
    dsimp only
    by_cases h1 : (r.status == 200 && !(pyIn "text/html" (pyLower r.contentType))) = true
    · simp [h1]
    · by_cases h2 : pyIn "application/json" (pyLower r.contentType) = true
      · simp [h1, h2]
      · simp [h1, h2]

theorem mrCore_error_upstream (env : Nat → Outcome) (k : Nat)
    (combos : List (List (String × String))) (lastE : Option String) (e : PyErr)
    (h : (mrCore env k combos lastE).result = .error e) :
    ∃ m d, e = .upstream m d := by
  induction combos generalizing k lastE with
  | nil =>
    simp only [mrCore] at h
    exact ⟨_, _, (Except.error.inj h).symm⟩
  | cons c rest ih =>
    simp only [mrCore] at h
    cases henv : env k with
    | exn m =>
      rw [henv] at h
      exact ih (k + 1) (some m) h
    | resp r =>
      rw [henv] at h
      by_cases h1 : (r.status == 200 && !(pyIn "text/html" (pyLower r.contentType))) = true
      · simp [h1] at h
      · by_cases h2 : pyIn "application/json" (pyLower r.contentType) = true
        · simp [h1, h2] at h
        · simp only [h1, h2, Bool.false_eq_true, if_false] at h
          exact ih (k + 1) lastE h

theorem makeRequest_result (url : String) (params : List (String × String))
    (env : Nat → Outcome) (k : Nat) :
    (makeRequestWithFallback url params env k).result = (mrCore env k headerCombinations none).result := rfl

theorem makeRequest_issued_length (url : String) (params : List (String × String))
    (env : Nat → Outcome) (k : Nat) :
    (makeRequestWithFallback url params env k).issued.length =
      (mrCore env k headerCombinations none).consumed := by
  simp [makeRequestWithFallback]

theorem makeRequest_issued_le (url : String) (params : List (String × String))
    (env : Nat → Outcome) (k : Nat) :
    (makeRequestWithFallback url params env k).issued.length ≤ 3 := by
  rw [makeRequest_issued_length]
  exact mrCore_consumed_le env k headerCombinations none

theorem bindE_err {α β : Type} (e : PyErr) (f : α → Except PyErr β) :
    ((Except.error e : Except PyErr α) >>= f) = .error e := rfl

theorem bindE_ok {α β : Type} (a : α) (f : α → Except PyErr β) :
    ((Except.ok a : Except PyErr α) >>= f) = f a := rfl

theorem validate_error_upstream (r : Response) (e : PyErr)
    (h : validateJsonResponse r = .error e) : ∃ m d, e = .upstream m d := by
  unfold validateJsonResponse at h
  dsimp only at h
  repeat' split at h
  all_goals
    first
      | exact ⟨_, _, (Except.error.inj h).symm⟩
      | exact absurd h (by simp)

theorem pyGet_error_shape (v : JValue) (key : String) (dflt : JValue) (e : PyErr)
    (h : pyGet v key dflt = .error e) : ∃ ty, e = .attributeError (noAttrMsg ty "get") := by
  cases v <;> simp [pyGet] at h <;> exact ⟨_, h.symm⟩

theorem pyInt_error_shape (v : JValue) (e : PyErr) (h : pyInt v = .error e) :
    (∃ s, e = .valueError (intLiteralMsg s)) ∨ (∃ m, e = .typeError m) := by
  unfold pyInt at h
  cases v with
  | jnum n => simp at h
  | jbool b => simp at h
  | jstr s =>
    dsimp only at h
    cases hp : pyParseInt s with
    | some n => rw [hp] at h; simp at h
    | none => rw [hp] at h; exact Or.inl ⟨s, (Except.error.inj h).symm⟩
  | jnull => dsimp only at h; exact Or.inr ⟨_, (Except.error.inj h).symm⟩
  | jarr l => dsimp only at h; exact Or.inr ⟨_, (Except.error.inj h).symm⟩
  | jobj f => dsimp only at h; exact Or.inr ⟨_, (Except.error.inj h).symm⟩

theorem processSearch_error_shape (data : JValue) (w i : String) (e : PyErr)
    (h : processSearch data w i = .error e) :
    (∃ ty, e = .attributeError (noAttrMsg ty "get")) ∨
    (∃ s, e = .valueError (intLiteralMsg s)) ∨ (∃ m, e = .typeError m) := by
  unfold processSearch at h
  cases h1 : pyGet data w data with
  | error e1 =>
    rw [h1, bindE_err] at h
    obtain ⟨ty, hty⟩ := pyGet_error_shape _ _ _ _ h1
    exact Or.inl ⟨ty, by rw [← Except.error.inj h]; exact hty⟩
  | ok container =>
    rw [h1, bindE_ok] at h
    cases h2 : pyGet container i (.jarr []) with
    | error e2 =>
      rw [h2, bindE_err] at h
      obtain ⟨ty, hty⟩ := pyGet_error_shape _ _ _ _ h2
      exact Or.inl ⟨ty, by rw [← Except.error.inj h]; exact hty⟩
    | ok items =>
      rw [h2, bindE_ok] at h
      dsimp only at h
      cases h3 : pyGet container "totalCnt" (.jnum 0) with
      | error e3 =>
        rw [h3, bindE_err] at h
        obtain ⟨ty, hty⟩ := pyGet_error_shape _ _ _ _ h3
        exact Or.inl ⟨ty, by rw [← Except.error.inj h]; exact hty⟩
      | ok rawTotal =>
        rw [h3, bindE_ok] at h
        cases h4 : pyInt rawTotal with
        | error e4 =>
          rw [h4, bindE_err] at h
          rcases pyInt_error_shape _ _ h4 with ⟨s, hs⟩ | ⟨m, hm⟩
          · exact Or.inr (Or.inl ⟨s, by rw [← Except.error.inj h]; exact hs⟩)
          · exact Or.inr (Or.inr ⟨m, by rw [← Except.error.inj h]; exact hm⟩)
        | ok t =>
          rw [h4, bindE_ok] at h
          simp at h

theorem lawSearchAttempt_result_eq (url : String) (p : List (String × String))
    (env : Nat → Outcome) (k : Nat) :
    (lawSearchAttempt url p env k).result =
      ((mrCore env k headerCombinations none).result >>= fun resp =>
        validateJsonResponse resp >>= fun data => processSearch data "LawSearch" "law") := rfl

theorem lawSearchAttempt_error_shape (url : String) (p : List (String × String))
    (env : Nat → Outcome) (k : Nat) (e : PyErr)
    (h : (lawSearchAttempt url p env k).result = .error e) :
    (∃ m d, e = .upstream m d) ∨ (∃ ty, e = .attributeError (noAttrMsg ty "get")) ∨
    (∃ s, e = .valueError (intLiteralMsg s)) ∨ (∃ m, e = .typeError m) := by
  rw [lawSearchAttempt_result_eq] at h
  cases h1 : (mrCore env k headerCombinations none).result with
  | error e1 =>
    rw [h1, bindE_err] at h
    obtain ⟨m, d, hmd⟩ := mrCore_error_upstream env k _ none e1 h1
    exact Or.inl ⟨m, d, by rw [← Except.error.inj h]; exact hmd⟩
  | ok resp =>
    rw [h1, bindE_ok] at h
    cases h2 : validateJsonResponse resp with
    | error e2 =>
      rw [h2, bindE_err] at h
      obtain ⟨m, d, hmd⟩ := validate_error_upstream _ _ h2
      exact Or.inl ⟨m, d, by rw [← Except.error.inj h]; exact hmd⟩
    | ok data =>
      rw [h2, bindE_ok] at h
      exact Or.inr (processSearch_error_shape _ _ _ _ h)

theorem intLiteralMsg_ne_modeErrMsg (s : String) : intLiteralMsg s ≠ modeErrMsg := by
  intro h
  have hl := congrArg String.length h
  rw [intLiteralMsg, modeErrMsg] at hl
  rw [String.length_append, String.length_append] at hl
  have h1 : ("invalid literal for int() with base 10: \x27").length = 41 := by decide
  have h2 : ("search must be 1 (법령명) or 2 (본문)").length = 32 := by decide
  have h3 : ("\x27").length = 1 := by decide
  omega

theorem makeRequest_issued_mem (url : String) (params : List (String × String))
    (env : Nat → Outcome) (k : Nat) :
    ∀ r ∈ (makeRequestWithFallback url params env k).issued, r.url = url ∧ r.params = params := by
  intro r hr
  simp only [makeRequestWithFallback, List.mem_map] at hr
  obtain ⟨j, _, rfl⟩ := hr
  exact ⟨rfl, rfl⟩

theorem lawSearchAttempt_issued_le (url : String) (p : List (String × String))
    (env : Nat → Outcome) (k : Nat) : (lawSearchAttempt url p env k).issued.length ≤ 3 :=
  makeRequest_issued_le url p env k

/-- C6: for every mode value outside 1 and 2, `search_laws` raises the
invalid-parameter `ValueError` before issuing any upstream request; for mode
1 or 2 the invalid-parameter error is never raised. -/
theorem c6_mode_validation (oc base q : String) (page size m : Int)
    (env : Nat → Outcome) (k : Nat) :
    ((m ≠ 1 ∧ m ≠ 2) → searchLaws oc base q page size m env k =
      ⟨.error (.valueError modeErrMsg), [], []⟩) ∧
    ((m = 1 ∨ m = 2) →
      (searchLaws oc base q page size m env k).result ≠ .error (.valueError modeErrMsg)) := by
  constructor
  · intro hne
    have hcond : (m == 1 || m == 2) = false := by
      simp [hne.1, hne.2]
    simp [searchLaws, hcond]
  · intro hm h
    have hcond : (m == 1 || m == 2) = true := by
      rcases hm with rfl | rfl <;> simp
    rw [searchLaws] at h
    split at h
    · rename_i hc
      rw [hcond] at hc
      simp at hc
    · dsimp only at h
      split at h
      · simp at h
      · split at h
        · simp at h
        · simp at h
      · rename_i e heq
        dsimp only at h
        have he := Except.error.inj h
        subst he
        rcases lawSearchAttempt_error_shape _ _ _ _ _ heq with
          ⟨m1, d1, hmd⟩ | ⟨ty, hty⟩ | ⟨s, hs⟩ | ⟨ms, hty2⟩
        · simp at hmd
        · simp at hty
        · exact intLiteralMsg_ne_modeErrMsg s (PyErr.valueError.inj hs).symm
        · simp at hty2

/-- Witness for C6 at concrete inputs: mode 3 is rejected with no request
issued, and mode 1 never yields the invalid-parameter error. -/
theorem c6_mode_validation_witness :
    searchLaws "testOC" "base" "" 1 10 3 envHtml 0 =
      ⟨.error (.valueError modeErrMsg), [], []⟩ ∧
    (searchLaws "testOC" "base" "" 1 10 1 envHtml 0).result ≠
      .error (.valueError modeErrMsg) :=
  ⟨(c6_mode_validation "testOC" "base" "" 1 10 3 envHtml 0).1 (by decide),
   (c6_mode_validation "testOC" "base" "" 1 10 1 envHtml 0).2 (Or.inl rfl)⟩

/-- C1 counterexample: with every physical attempt answered by a 200 HTML
page, one `search_laws` call issues six physical upstream requests, more
than the four the claim allows. -/
theorem c1_counterexample :
    (searchLaws "testOC" "http://www.law.go.kr/DRF" "" 1 10 1 envHtml 0).issued.length = 6 ∧
    ¬ (searchLaws "testOC" "http://www.law.go.kr/DRF" "" 1 10 1 envHtml 0).issued.length ≤ 4 := by
  constructor
  · rfl
  · decide

/-- C1 amended: per logical operation the physical-request bound is six for
`search_laws` (two phases of the three-header-combination loop) and three
for `get_law_detail` and `search_attachments`. -/
theorem c1_request_bound (oc base q lawId : String) (page size m : Int)
    (env : Nat → Outcome) (k : Nat) :
    (searchLaws oc base q page size m env k).issued.length ≤ 6 ∧
    (getLawDetail oc base lawId env k).issued.length ≤ 3 ∧
    (searchAttachments oc base q page size env k).issued.length ≤ 3 := by
  refine ⟨?_, ?_, ?_⟩
  · rw [searchLaws]
    split
    · simp
    · dsimp only
      split
      · exact le_trans (lawSearchAttempt_issued_le _ _ _ _) (by norm_num)
      · split
        · dsimp only
          rw [List.length_append]
          exact Nat.add_le_add (lawSearchAttempt_issued_le _ _ _ _) (lawSearchAttempt_issued_le _ _ _ _)
        · dsimp only
          rw [List.length_append]
          exact Nat.add_le_add (lawSearchAttempt_issued_le _ _ _ _) (lawSearchAttempt_issued_le _ _ _ _)
      · exact le_trans (lawSearchAttempt_issued_le _ _ _ _) (by norm_num)
  · exact makeRequest_issued_le _ _ env k
  · exact makeRequest_issued_le _ _ env k

/-- C10: every request to the `/debug/law-api` handler raises
`AttributeError` at the `client._mask_oc_in_url` access — the attribute is
not defined on `LawClient` — before any upstream request is issued, so the
endpoint never returns its debug report. -/
theorem c10_debug_endpoint (q oc base : String) :
    debugLawApi q oc base =
      (.error (.attributeError (noAttrMsg "LawClient" "_mask_oc_in_url")), []) := rfl

theorem detailWrap_typed (e : PyErr) : isTypedErr (detailWrap e) = true := by
  cases e <;> rfl

theorem attachWrap_typed (e : PyErr) : isTypedErr (attachWrap e) = true := by
  cases e <;> rfl

theorem typedResult_mapError {α : Type} (r : Except PyErr α) (f : PyErr → PyErr)
    (hf : ∀ e, isTypedErr (f e) = true) : typedResult (r.mapError f) = true := by
  cases r with
  | ok a => rfl
  | error e => exact hf e

/-- C5 counterexample: a 200 JSON response whose payload is a JSON array
makes `search_laws` raise a raw `AttributeError` — not one of the three
typed errors — from its first-phase response processing. -/
theorem c5_counterexample :
    (searchLaws "testOC" "base" "" 1 10 1 envJsonArray 0).result =
      .error (.attributeError (noAttrMsg "list" "get")) ∧
    isTypedErr (.attributeError (noAttrMsg "list" "get")) = false :=
  ⟨rfl, rfl⟩

/-- C5 amended: `get_law_detail` and `search_attachments` return or raise
only typed errors for every environment, and so does `search_laws` whenever
its first phase failed with an `UpstreamServiceError`; the unwrapped escape
of `c5_counterexample` is only possible from the first phase of
`search_laws`. -/
theorem c5_error_wrapping (oc base q lawId : String) (page size m : Int)
    (env : Nat → Outcome) (k : Nat) :
    typedResult (getLawDetail oc base lawId env k).result = true ∧
    typedResult (searchAttachments oc base q page size env k).result = true ∧
    (∀ m1 d1,
      (lawSearchAttempt (base ++ "/lawSearch.do") (lawSearchParams oc q page size) env k).result
        = .error (.upstream m1 d1) →
      typedResult (searchLaws oc base q page size m env k).result = true) := by
  refine ⟨?_, ?_, ?_⟩
  · exact typedResult_mapError _ _ detailWrap_typed
  · exact typedResult_mapError _ _ attachWrap_typed
  · intro m1 d1 h1
    rw [searchLaws]
    split
    · rfl
    · dsimp only
      rw [h1]
      dsimp only
      cases (lawSearchAttempt (base ++ "/lawSearch.do")
          (lawSearchParams oc q page size ++ [("search", pyStrOfInt m)]) env
          (k + (lawSearchAttempt (base ++ "/lawSearch.do")
            (lawSearchParams oc q page size) env k).issued.length)).result with
      | ok out => rfl
      | error e2 => rfl

/-- Witness for C5 at concrete inputs, the third part applied to the
all-HTML environment whose first phase fails upstream. -/
theorem c5_error_wrapping_witness :
    typedResult (getLawDetail "testOC" "base" "7" envHtml 0).result = true ∧
    typedResult (searchAttachments "testOC" "base" "" 1 10 envHtml 0).result = true ∧
    typedResult (searchLaws "testOC" "base" "" 1 10 1 envHtml 0).result = true :=
  ⟨(c5_error_wrapping "testOC" "base" "" "7" 1 10 1 envHtml 0).1,
   (c5_error_wrapping "testOC" "base" "" "7" 1 10 1 envHtml 0).2.1,
   (c5_error_wrapping "testOC" "base" "" "7" 1 10 1 envHtml 0).2.2
     "모든 헤더 조합을 시도했으나 JSON 응답을 받을 수 없습니다" "마지막 오류: ALL_ATTEMPTS_FAILED" rfl⟩

/-- C4 counterexample: one attempt answered by a status-500 response with a
JSON content type is accepted immediately — the operation succeeds after a
single attempt instead of retrying and failing after three. -/
theorem c4_counterexample :
    env500json 0 = .resp r500json ∧ r500json.status = 500 ∧
    (getLawDetail "testOC" "base" "007363" env500json 0).result =
      .ok ⟨"007363", .jstr "산업안전보건법", .jstr "20250101",
        "base/lawService.do?OC=testOC&target=law&type=HTML&MST=mst123&efYd=20250101"⟩ ∧
    (getLawDetail "testOC" "base" "007363" env500json 0).issued.length = 1 :=
  ⟨rfl, rfl, rfl, rfl⟩

theorem getLawDetail_result_eq (oc base lawId : String) (env : Nat → Outcome) (k : Nat) :
    (getLawDetail oc base lawId env k).result =
      ((mrCore env k headerCombinations none).result >>= fun resp =>
        if resp.status == 404 then .error .lawNotFound
        else validateJsonResponse resp >>= fun data => buildDetail oc base lawId data).mapError
        detailWrap := rfl

theorem getLawDetail_issued_length (oc base lawId : String) (env : Nat → Outcome) (k : Nat) :
    (getLawDetail oc base lawId env k).issued.length =
      (mrCore env k headerCombinations none).consumed := by
  simp [getLawDetail, makeRequestWithFallback]

theorem getLawDetail_sleeps_eq (oc base lawId : String) (env : Nat → Outcome) (k : Nat) :
    (getLawDetail oc base lawId env k).sleeps = (mrCore env k headerCombinations none).sleeps := rfl

/-- C4 amended: three consecutive attempts answered with status 500 and no
JSON content type exhaust the header-combination loop, and `get_law_detail`
fails with `UpstreamServiceError` after exactly three attempts — with no
backoff delay of any kind between them. -/
theorem c4_all_500_exhausts_attempts (oc base lawId : String)
    (env : Nat → Outcome) (k : Nat) (r0 r1 r2 : Response)
    (h0 : env k = .resp r0) (h1 : env (k + 1) = .resp r1) (h2 : env (k + 2) = .resp r2)
    (s0 : r0.status = 500) (s1 : r1.status = 500) (s2 : r2.status = 500)
    (c0 : pyIn "application/json" (pyLower r0.contentType) = false)
    (c1 : pyIn "application/json" (pyLower r1.contentType) = false)
    (c2 : pyIn "application/json" (pyLower r2.contentType) = false) :
    (getLawDetail oc base lawId env k).result =
      .error (.upstream "모든 헤더 조합을 시도했으나 JSON 응답을 받을 수 없습니다"
        "마지막 오류: ALL_ATTEMPTS_FAILED") ∧
    (getLawDetail oc base lawId env k).issued.length = 3 ∧
    (getLawDetail oc base lawId env k).sleeps = [] := by
  have hcore : mrCore env k headerCombinations none =
      ⟨.error (.upstream "모든 헤더 조합을 시도했으나 JSON 응답을 받을 수 없습니다"
        "마지막 오류: ALL_ATTEMPTS_FAILED"), 3, []⟩ := by
    simp [mrCore, headerCombinations, h0, h1, h2, s0, s1, s2, c0, c1, c2]
  refine ⟨?_, ?_, ?_⟩
  · rw [getLawDetail_result_eq, hcore]
    rfl
  · rw [getLawDetail_issued_length, hcore]
  · rw [getLawDetail_sleeps_eq, hcore]

/-- Witness for C4 at a concrete all-500 HTML environment. -/
theorem c4_all_500_witness :
    (getLawDetail "testOC" "base" "007363" env500html 0).result =
      .error (.upstream "모든 헤더 조합을 시도했으나 JSON 응답을 받을 수 없습니다"
        "마지막 오류: ALL_ATTEMPTS_FAILED") ∧
    (getLawDetail "testOC" "base" "007363" env500html 0).issued.length = 3 ∧
    (getLawDetail "testOC" "base" "007363" env500html 0).sleeps = [] :=
  c4_all_500_exhausts_attempts "testOC" "base" "007363" env500html 0 r500html r500html r500html
    rfl rfl rfl rfl rfl rfl (by decide) (by decide) (by decide)

/-- C3: at the exact upstream of the repository test
`test_get_law_detail_not_found` — a 404 with empty body and no content-type
header — `get_law_detail` does not fail with `LawNotFoundError` after one
request: it retries all three header combinations and fails with
`UpstreamServiceError`. -/
theorem c3_observed_on_plain_404 :
    (getLawDetail "testOC" "base" "999999" env404plain 0).result =
      .error (.upstream "모든 헤더 조합을 시도했으나 JSON 응답을 받을 수 없습니다"
        "마지막 오류: ALL_ATTEMPTS_FAILED") ∧
    (getLawDetail "testOC" "base" "999999" env404plain 0).issued.length = 3 ∧
    (getLawDetail "testOC" "base" "999999" env404plain 0).result ≠ .error .lawNotFound :=
  ⟨rfl, rfl, fun h => PyErr.noConfusion (Except.error.inj h)⟩

theorem lawSearchAttempt_issued_pos (url : String) (p : List (String × String))
    (env : Nat → Outcome) (k : Nat) : 1 ≤ (lawSearchAttempt url p env k).issued.length := by
  rw [show (lawSearchAttempt url p env k).issued = (makeRequestWithFallback url p env k).issued
      from rfl, makeRequest_issued_length]
  exact mrCore_consumed_pos env k _ _ none

/-- C2 counterexample: the first physical primary request yields an HTML
body with status 200, yet `search_laws` succeeds on the second header
combination — zero fallback requests (no request carries the `search`
parameter) instead of the exactly one the claim demands. -/
theorem c2_counterexample :
    envHtmlThenJson 0 = .resp rHtml ∧ rHtml.status = 200 ∧
    pyIn "text/html" (pyLower rHtml.contentType) = true ∧
    pyIn "<html" (pyLower rHtml.bodyText) = true ∧
    (searchLaws "testOC" "base" "" 1 10 1 envHtmlThenJson 0).result =
      .ok (.jarr [.jobj [("법령ID", .jstr "123")]], 1) ∧
    ((searchLaws "testOC" "base" "" 1 10 1 envHtmlThenJson 0).issued.filter
      (fun r => r.params.any (fun p => p.1 == "search"))).length = 0 ∧
    (searchLaws "testOC" "base" "" 1 10 1 envHtmlThenJson 0).issued.length = 2 :=
  ⟨rfl, rfl, by decide, by decide, rfl, rfl, rfl⟩

/-- C2 amended: whenever the whole primary phase of `search_laws` fails with
an `UpstreamServiceError` (for instance because every primary attempt got an
HTML page), exactly one fallback phase runs — between one and three physical
requests, each carrying the primary parameters with the `search` mode
appended — and the operation succeeds exactly when that phase succeeds,
otherwise failing with the upstream error concatenating the primary detail
and the fallback failure text. -/
theorem c2_fallback_phase (oc base q : String) (page size m : Int)
    (env : Nat → Outcome) (k : Nat) (m1 d1 : String)
    (hm : m = 1 ∨ m = 2)
    (h1 : (searchPhase1 oc base q page size env k).result = .error (.upstream m1 d1)) :
    (searchLaws oc base q page size m env k).issued =
      (searchPhase1 oc base q page size env k).issued ++
        (searchPhase2 oc base q page size m env k).issued ∧
    1 ≤ (searchPhase2 oc base q page size m env k).issued.length ∧
    (searchPhase2 oc base q page size m env k).issued.length ≤ 3 ∧
    (∀ r ∈ (searchPhase2 oc base q page size m env k).issued,
      r.url = base ++ "/lawSearch.do" ∧
      r.params = lawSearchParams oc q page size ++ [("search", pyStrOfInt m)]) ∧
    (∀ out, (searchPhase2 oc base q page size m env k).result = .ok out →
      (searchLaws oc base q page size m env k).result = .ok out) ∧
    (∀ e2, (searchPhase2 oc base q page size m env k).result = .error e2 →
      (searchLaws oc base q page size m env k).result =
        .error (.upstream "법령 검색 실패 (1차, 2차 모두 실패)"
          ("1차: " ++ d1 ++ " | 2차: " ++ e2.toStr))) := by
  have hc2 : (!(m == 1 || m == 2)) = false := by
    rcases hm with rfl | rfl <;> simp
  have hsl : searchLaws oc base q page size m env k =
      match (searchPhase2 oc base q page size m env k).result with
      | .ok out => ⟨.ok out,
          (searchPhase1 oc base q page size env k).issued ++
            (searchPhase2 oc base q page size m env k).issued,
          (searchPhase1 oc base q page size env k).sleeps ++
            (searchPhase2 oc base q page size m env k).sleeps⟩
      | .error e2 => ⟨.error (.upstream "법령 검색 실패 (1차, 2차 모두 실패)"
            ("1차: " ++ d1 ++ " | 2차: " ++ e2.toStr)),
          (searchPhase1 oc base q page size env k).issued ++
            (searchPhase2 oc base q page size m env k).issued,
          (searchPhase1 oc base q page size env k).sleeps ++
            (searchPhase2 oc base q page size m env k).sleeps⟩ := by
    rw [searchLaws, hc2]
    simp only [Bool.false_eq_true, if_false]
    rw [show lawSearchAttempt (base ++ "/lawSearch.do") (lawSearchParams oc q page size) env k =
      searchPhase1 oc base q page size env k from rfl]
    rw [h1]
    rw [show lawSearchAttempt (base ++ "/lawSearch.do")
        (lawSearchParams oc q page size ++ [("search", pyStrOfInt m)]) env
        (k + (searchPhase1 oc base q page size env k).issued.length) =
      searchPhase2 oc base q page size m env k from rfl]
  refine ⟨?_, ?_, ?_, ?_, ?_, ?_⟩
  · rw [hsl]
    cases (searchPhase2 oc base q page size m env k).result with
    | ok out => rfl
    | error e2 => rfl
  · exact lawSearchAttempt_issued_pos _ _ _ _
  · exact lawSearchAttempt_issued_le _ _ _ _
  · intro r hr
    exact makeRequest_issued_mem _ _ env _ r hr
  · intro out h2
    rw [hsl, h2]
  · intro e2 h2
    rw [hsl, h2]

/-- Witness for C2 at the all-HTML environment: the primary phase fails, the
fallback phase runs and also fails, and the reported detail concatenates
both phases. -/
theorem c2_fallback_phase_witness :
    (searchLaws "testOC" "http://www.law.go.kr/DRF" "" 1 10 1 envHtml 0).result =
      .error (.upstream "법령 검색 실패 (1차, 2차 모두 실패)"
        ("1차: 마지막 오류: ALL_ATTEMPTS_FAILED | 2차: 모든 헤더 조합을 시도했으나 JSON 응답을 받을 수 없습니다")) ∧
    1 ≤ (searchPhase2 "testOC" "http://www.law.go.kr/DRF" "" 1 10 1 envHtml 0).issued.length :=
  ⟨(c2_fallback_phase "testOC" "http://www.law.go.kr/DRF" "" 1 10 1 envHtml 0
      "모든 헤더 조합을 시도했으나 JSON 응답을 받을 수 없습니다" "마지막 오류: ALL_ATTEMPTS_FAILED"
      (Or.inl rfl) rfl).2.2.2.2.2
      (.upstream "모든 헤더 조합을 시도했으나 JSON 응답을 받을 수 없습니다"
        "마지막 오류: ALL_ATTEMPTS_FAILED") rfl,
   (c2_fallback_phase "testOC" "http://www.law.go.kr/DRF" "" 1 10 1 envHtml 0
      "모든 헤더 조합을 시도했으나 JSON 응답을 받을 수 없습니다" "마지막 오류: ALL_ATTEMPTS_FAILED"
      (Or.inl rfl) rfl).2.1⟩

theorem buildDetail_ok_shape (oc base lawId : String) (data : JValue) (d : LawDetail)
    (h : buildDetail oc base lawId data = .ok d) :
    ∃ fields, extractLawInfo data = .ok (.jobj fields) ∧
      truthy (JValue.jobj fields) = true ∧
      (truthy (resolvedMst fields) = true →
        d.source_url = base ++ "/lawService.do?OC=" ++ oc ++ "&target=law&type=HTML&MST="
          ++ pyStr (resolvedMst fields)
          ++ (if truthy (resolvedEff fields) then "&efYd=" ++ pyStr (resolvedEff fields) else "")) ∧
      (truthy (resolvedMst fields) = false →
        d.source_url = base ++ "/lawService.do?OC=" ++ oc ++ "&target=law&type=HTML&ID=" ++ lawId) := by
  rw [buildDetail] at h
  cases h1 : pyGet data "법령" (.jobj []) with
  | error e => rw [h1, bindE_err] at h; exact absurd h (by simp)
  | ok t1 =>
    rw [h1] at h
    simp only [bindE_ok] at h
    cases h2 : pyGet data "law" (.jobj []) with
    | error e => rw [h2, bindE_err] at h; exact absurd h (by simp)
    | ok dflt =>
      rw [h2] at h
      simp only [bindE_ok] at h
      cases h3 : pyGet t1 "기본정보" dflt with
      | error e => rw [h3, bindE_err] at h; exact absurd h (by simp)
      | ok lawInfo =>
        rw [h3] at h
        simp only [bindE_ok] at h
        cases htr : truthy lawInfo with
        | false =>
          rw [htr] at h
          simp at h
        | true =>
          rw [htr] at h
          simp only [Bool.not_true, Bool.false_eq_true, if_false] at h
          cases lawInfo with
          | jnull => simp [pyGet, bindE_err] at h
          | jbool b => simp [pyGet, bindE_err] at h
          | jstr st => simp [pyGet, bindE_err] at h
          | jnum n => simp [pyGet, bindE_err] at h
          | jarr l => simp [pyGet, bindE_err] at h
          | jobj fields =>
            have hd : d = ⟨lawId,
                pyOr (pyOr (pyOr (resolvedField fields "법령명_한글")
                  (resolvedField fields "법령명한글")) (resolvedField fields "LAW_NM")) (.jstr ""),
                resolvedEff fields,
                if truthy (resolvedMst fields) then
                  base ++ "/lawService.do?OC=" ++ oc ++ "&target=law&type=HTML&MST="
                    ++ pyStr (resolvedMst fields)
                    ++ (if truthy (resolvedEff fields) then "&efYd=" ++ pyStr (resolvedEff fields)
                        else "")
                else base ++ "/lawService.do?OC=" ++ oc ++ "&target=law&type=HTML&ID=" ++ lawId⟩ :=
              (Except.ok.inj h).symm
            refine ⟨fields, ?_, htr, ?_, ?_⟩
            · rw [extractLawInfo, h1]
              simp only [bindE_ok]
              rw [h2]
              simp only [bindE_ok]
              exact h3
            · intro hmst
              rw [hd, hmst]
              rfl
            · intro hmst
              rw [hd, hmst]
              rfl

/-- C7: every successful `get_law_detail` call factors through `buildDetail`
on the validated payload; for every such success — whatever the payload
shape — the statute-info sub-object extracted under the ordered candidate
keys of law_client.py line 254 is a truthy dict, and the returned source URL
references the resolved master identifier whenever one is truthy, with the
`efYd` qualifier exactly when the resolved effective date is truthy, and the
public `ID` otherwise; moreover a truthy `MST` key always wins over the
`법령일련번호` alias. -/
theorem c7_detail_source_url :
    (∀ oc base lawId env k d,
      (getLawDetail oc base lawId env k).result = .ok d →
      ∃ data fields, buildDetail oc base lawId data = .ok d ∧
        extractLawInfo data = .ok (.jobj fields) ∧
        truthy (JValue.jobj fields) = true ∧
        (truthy (resolvedMst fields) = true →
          d.source_url = base ++ "/lawService.do?OC=" ++ oc ++ "&target=law&type=HTML&MST="
            ++ pyStr (resolvedMst fields)
            ++ (if truthy (resolvedEff fields) then "&efYd=" ++ pyStr (resolvedEff fields)
                else "")) ∧
        (truthy (resolvedMst fields) = false →
          d.source_url = base ++ "/lawService.do?OC=" ++ oc ++ "&target=law&type=HTML&ID="
            ++ lawId)) ∧
    (∀ fields, truthy (resolvedField fields "MST") = true →
      resolvedMst fields = resolvedField fields "MST") := by
  constructor
  · intro oc base lawId env k d h
    rw [getLawDetail_result_eq] at h
    cases hmr : (mrCore env k headerCombinations none).result with
    | error e =>
      rw [hmr, bindE_err] at h
      simp [Except.mapError] at h
    | ok resp =>
      rw [hmr, bindE_ok] at h
      cases hs : resp.status == 404 with
      | true =>
        rw [hs] at h
        simp [Except.mapError] at h
      | false =>
        rw [hs] at h
        simp only [Bool.false_eq_true, if_false] at h
        cases hv : validateJsonResponse resp with
        | error e =>
          rw [hv, bindE_err] at h
          simp [Except.mapError] at h
        | ok data =>
          rw [hv, bindE_ok] at h
          cases hb : buildDetail oc base lawId data with
          | error e =>
            rw [hb] at h
            simp [Except.mapError] at h
          | ok d2 =>
            rw [hb] at h
            simp only [Except.mapError] at h
            have hd2 : d2 = d := Except.ok.inj h
            subst hd2
            obtain ⟨fields, hext, htr, hpos, hneg⟩ :=
              buildDetail_ok_shape oc base lawId data d2 hb
            exact ⟨data, fields, hb, hext, htr, hpos, hneg⟩
  · intro fields hmst
    rw [resolvedMst, pyOr, hmst]
    rfl

/-- Witness for C7 at concrete runs covering both payload shapes: the
`법령/기본정보` nesting is exercised through the general theorem elsewhere,
and here the `law` top-level key (the repository fixture shape) resolves the
master-identifier URL with the date qualifier, while a record with no master
identifier falls back to the `ID` URL with no qualifier; a truthy `MST`
beats the alias key. -/
theorem c7_detail_source_url_witness :
    (getLawDetail "testOC" "base" "007363" envLawKeyJson 0).result =
      .ok ⟨"007363", .jstr "산업안전보건법", .jstr "20250101",
        "base/lawService.do?OC=testOC&target=law&type=HTML&MST=mst123&efYd=20250101"⟩ ∧
    (∃ data fields,
      buildDetail "testOC" "base" "007363" data =
        .ok ⟨"007363", .jstr "산업안전보건법", .jstr "20250101",
          "base/lawService.do?OC=testOC&target=law&type=HTML&MST=mst123&efYd=20250101"⟩ ∧
      extractLawInfo data = .ok (.jobj fields) ∧
      truthy (JValue.jobj fields) = true ∧
      (truthy (resolvedMst fields) = true →
        (⟨"007363", .jstr "산업안전보건법", .jstr "20250101",
          "base/lawService.do?OC=testOC&target=law&type=HTML&MST=mst123&efYd=20250101"⟩ :
            LawDetail).source_url =
          "base" ++ "/lawService.do?OC=" ++ "testOC" ++ "&target=law&type=HTML&MST="
            ++ pyStr (resolvedMst fields)
            ++ (if truthy (resolvedEff fields) then "&efYd=" ++ pyStr (resolvedEff fields)
                else "")) ∧
      (truthy (resolvedMst fields) = false →
        (⟨"007363", .jstr "산업안전보건법", .jstr "20250101",
          "base/lawService.do?OC=testOC&target=law&type=HTML&MST=mst123&efYd=20250101"⟩ :
            LawDetail).source_url =
          "base" ++ "/lawService.do?OC=" ++ "testOC" ++ "&target=law&type=HTML&ID="
            ++ "007363")) ∧
    (getLawDetail "testOC" "base" "007363" envNoMstJson 0).result =
      .ok ⟨"007363", .jstr "산업안전보건법", .jstr "",
        "base/lawService.do?OC=testOC&target=law&type=HTML&ID=007363"⟩ ∧
    resolvedMst [("MST", .jstr "mst123"), ("법령일련번호", .jstr "222")] = .jstr "mst123" :=
  ⟨rfl,
   c7_detail_source_url.1 "testOC" "base" "007363" envLawKeyJson 0
     ⟨"007363", .jstr "산업안전보건법", .jstr "20250101",
       "base/lawService.do?OC=testOC&target=law&type=HTML&MST=mst123&efYd=20250101"⟩ rfl,
   rfl,
   c7_detail_source_url.2 [("MST", .jstr "mst123"), ("법령일련번호", .jstr "222")] (by decide)⟩

/-- C8 counterexample: a response whose body contains the authentication
phrase `인증` but no HTML root tag, under a JSON content type, is classified
as a parse error — not as the HTML error page with the AUTH hint that the
claim requires. -/
theorem c8_counterexample :
    pyIn "인증" (pyLower rAuthWord.bodyText) = true ∧
    pyIn "text/html" (pyLower rAuthWord.contentType) = false ∧
    pyIn "<html" (pyLower rAuthWord.bodyText) = false ∧
    validateJsonResponse rAuthWord =
      .error (.upstream "JSON 파싱 실패"
        "JSON_PARSE_ERROR: Expecting value: line 1 column 1 (char 0) | Preview: 인증 오류") :=
  ⟨by decide, by decide, by decide, rfl⟩

/-- C8 amended: the classifier is a pure case analysis — empty body first,
then the HTML branch triggered only by an HTML content-type marker or an
HTML root tag in the body (the auth/access vocabularies select only the
diagnostic hint inside that branch), then JSON parsing with the
300-character preview on failure. -/
theorem c8_classifier (r : Response) :
    ((r.bodyText == "" || pyStrip r.bodyText == "") = true →
      validateJsonResponse r =
        .error (.upstream "법령 서비스에서 빈 응답을 반환했습니다" "EMPTY_RESPONSE")) ∧
    ((r.bodyText == "" || pyStrip r.bodyText == "") = false →
      ((pyIn "text/html" (pyLower r.contentType) || pyIn "<html" (pyLower r.bodyText)) = true →
        validateJsonResponse r = .error (.upstream "법령 서비스에서 HTML 응답을 반환했습니다"
          (htmlHint (pyLower r.contentType) (pyLower r.bodyText)))) ∧
      ((pyIn "text/html" (pyLower r.contentType) || pyIn "<html" (pyLower r.bodyText)) = false →
        (∀ v, r.bodyJson = .ok v → validateJsonResponse r = .ok v) ∧
        (∀ m, r.bodyJson = .error m → validateJsonResponse r =
          .error (.upstream "JSON 파싱 실패"
            ("JSON_PARSE_ERROR: " ++ m ++ " | Preview: " ++ preview300 r.bodyText))))) ∧
    (∀ ct tl, (["인증", "권한", "허가", "승인"].any (fun kw => pyIn kw tl)) = true →
      htmlHint ct tl = "AUTHENTICATION_ERROR - API 키를 확인하세요") ∧
    (∀ ct tl, (["인증", "권한", "허가", "승인"].any (fun kw => pyIn kw tl)) = false →
      (["접속", "차단", "제한"].any (fun kw => pyIn kw tl)) = true →
      htmlHint ct tl = "ACCESS_BLOCKED - IP 또는 요청이 차단됨") ∧
    (∀ ct tl, (["인증", "권한", "허가", "승인"].any (fun kw => pyIn kw tl)) = false →
      (["접속", "차단", "제한"].any (fun kw => pyIn kw tl)) = false →
      htmlHint ct tl = "HTML_RESPONSE - Content-Type: " ++ ct) := by
  refine ⟨?_, ?_, ?_, ?_, ?_⟩
  · intro h
    rw [validateJsonResponse, h]
    rfl
  · intro h
    constructor
    · intro hH
      rw [validateJsonResponse, h]
      simp only [Bool.false_eq_true, if_false]
      rw [hH]
      rfl
    · intro hH
      constructor
      · intro v hv
        rw [validateJsonResponse, h]
        simp only [Bool.false_eq_true, if_false]
        rw [hH]
        simp only [Bool.false_eq_true, if_false]
        rw [hv]
      · intro m hm
        rw [validateJsonResponse, h]
        simp only [Bool.false_eq_true, if_false]
        rw [hH]
        simp only [Bool.false_eq_true, if_false]
        rw [hm]
  · intro ct tl hAuth
    rw [htmlHint, hAuth]
    rfl
  · intro ct tl hAuth hAcc
    rw [htmlHint, hAuth, hAcc]
    rfl
  · intro ct tl hAuth hAcc
    rw [htmlHint, hAuth, hAcc]
    rfl

/-- Witness for C8: the 200 HTML page is classified as the HTML error page
with the generic hint, and an auth-phrase page with an HTML root tag gets
the AUTH hint. -/
theorem c8_classifier_witness :
    validateJsonResponse rHtml =
      .error (.upstream "법령 서비스에서 HTML 응답을 반환했습니다"
        (htmlHint (pyLower rHtml.contentType) (pyLower rHtml.bodyText))) ∧
    htmlHint "text/html" "<html>인증 실패</html>" = "AUTHENTICATION_ERROR - API 키를 확인하세요" ∧
    htmlHint "text/html" "<html>serve</html>" = "HTML_RESPONSE - Content-Type: text/html" :=
  ⟨((c8_classifier rHtml).2.1 (by decide)).1 (by decide),
   (c8_classifier rHtml).2.2.1 "text/html" "<html>인증 실패</html>" (by decide),
   (c8_classifier rHtml).2.2.2.2 "text/html" "<html>serve</html>" (by decide) (by decide)⟩

theorem lawSearchAttempt_issued_len_eq (url : String) (p : List (String × String))
    (env : Nat → Outcome) (k : Nat) :
    (lawSearchAttempt url p env k).issued.length =
      (mrCore env k headerCombinations none).consumed := by
  simp [lawSearchAttempt, makeRequestWithFallback]

theorem errPart_mapError {α : Type} (r : Except PyErr α) (f : PyErr → PyErr) :
    errPart (r.mapError f) = Option.map f (errPart r) := by
  cases r <;> rfl

theorem buildDetail_errPart (oc1 oc2 base lawId : String) (data : JValue) :
    errPart (buildDetail oc1 base lawId data) = errPart (buildDetail oc2 base lawId data) := by
  rw [buildDetail, buildDetail]
  cases pyGet data "법령" (.jobj []) with
  | error e => rw [bindE_err, bindE_err]
  | ok t1 =>
    simp only [bindE_ok]
    cases pyGet data "law" (.jobj []) with
    | error e => rw [bindE_err, bindE_err]
    | ok dflt =>
      simp only [bindE_ok]
      cases pyGet t1 "기본정보" dflt with
      | error e => rw [bindE_err, bindE_err]
      | ok lawInfo =>
        simp only [bindE_ok]
        cases truthy lawInfo with
        | false => rfl
        | true =>
          simp only [Bool.not_true, Bool.false_eq_true, if_false]
          cases pyGet lawInfo "MST" .jnull with
          | error e => rw [bindE_err, bindE_err]
          | ok mstA =>
            simp only [bindE_ok]
            cases pyGet lawInfo "법령일련번호" .jnull with
            | error e => rw [bindE_err, bindE_err]
            | ok mstB =>
              simp only [bindE_ok]
              cases pyGet lawInfo "법령명_한글" .jnull with
              | error e => rw [bindE_err, bindE_err]
              | ok tA =>
                simp only [bindE_ok]
                cases pyGet lawInfo "법령명한글" .jnull with
                | error e => rw [bindE_err, bindE_err]
                | ok tB =>
                  simp only [bindE_ok]
                  cases pyGet lawInfo "LAW_NM" .jnull with
                  | error e => rw [bindE_err, bindE_err]
                  | ok tC =>
                    simp only [bindE_ok]
                    cases pyGet lawInfo "시행일자" .jnull with
                    | error e => rw [bindE_err, bindE_err]
                    | ok eA =>
                      simp only [bindE_ok]
                      cases pyGet lawInfo "EF_YD" .jnull with
                      | error e => rw [bindE_err, bindE_err]
                      | ok eB => rfl

set_option maxHeartbeats 1000000 in
/-- C9: the credential token never reaches an error: for any two credential
values and the same environment, the two runs of each operation produce the
same outcome — identical results for both search operations, and identical
raised exceptions (message and diagnostic detail included) for
`get_law_detail` — so no raised error, and in particular no
`UpstreamServiceError` detail string, depends on the `OC` token. -/
theorem c9_credential_noninterference (oc1 oc2 base q lawId : String)
    (page size m : Int) (env : Nat → Outcome) (k : Nat) :
    (searchLaws oc1 base q page size m env k).result =
      (searchLaws oc2 base q page size m env k).result ∧
    (searchAttachments oc1 base q page size env k).result =
      (searchAttachments oc2 base q page size env k).result ∧
    errPart (getLawDetail oc1 base lawId env k).result =
      errPart (getLawDetail oc2 base lawId env k).result := by
  refine ⟨?_, ?_, ?_⟩
  · cases hc : (!(m == 1 || m == 2)) with
    | true =>
      rw [searchLaws, searchLaws, hc]
      rfl
    | false =>
      rw [searchLaws, searchLaws, hc]
      simp only [Bool.false_eq_true, if_false]
      rw [show (lawSearchAttempt (base ++ "/lawSearch.do") (lawSearchParams oc2 q page size) env k).result
          = (lawSearchAttempt (base ++ "/lawSearch.do") (lawSearchParams oc1 q page size) env k).result
          from rfl]
      rw [lawSearchAttempt_issued_len_eq, lawSearchAttempt_issued_len_eq]
      cases (lawSearchAttempt (base ++ "/lawSearch.do") (lawSearchParams oc1 q page size) env k).result with
      | ok out => rfl
      | error e =>
        cases e with
        | lawNotFound => rfl
        | valueError msg => rfl
        | typeError msg => rfl
        | attributeError msg => rfl
        | upstream m1 d1 =>
          rw [show (lawSearchAttempt (base ++ "/lawSearch.do")
              (lawSearchParams oc2 q page size ++ [("search", pyStrOfInt m)]) env
              (k + (mrCore env k headerCombinations none).consumed)).result
            = (lawSearchAttempt (base ++ "/lawSearch.do")
              (lawSearchParams oc1 q page size ++ [("search", pyStrOfInt m)]) env
              (k + (mrCore env k headerCombinations none).consumed)).result from rfl]
          cases (lawSearchAttempt (base ++ "/lawSearch.do")
              (lawSearchParams oc1 q page size ++ [("search", pyStrOfInt m)]) env
              (k + (mrCore env k headerCombinations none).consumed)).result with
          | ok out => rfl
          | error e2 => rfl
  · rfl
  · rw [getLawDetail_result_eq, getLawDetail_result_eq]
    cases (mrCore env k headerCombinations none).result with
    | error e => rw [bindE_err, bindE_err]
    | ok resp =>
      simp only [bindE_ok]
      cases resp.status == 404 with
      | true => simp only [reduceIte]
      | false =>
        simp only [Bool.false_eq_true, if_false]
        cases validateJsonResponse resp with
        | error e => rw [bindE_err, bindE_err]
        | ok data =>
          simp only [bindE_ok]
          rw [errPart_mapError, errPart_mapError, buildDetail_errPart oc1 oc2 base lawId data]

end LawApi
